import Mathlib

/-!
Shallow embedding of the graphiti deployment utilities:
`server/graph_service/startup.py`, `server/graph_service/main.py`,
`server/graph_service/healthcheck.py` and `verify_deployment.py`.

Network and environment effects are explicit parameters: a probe function
stands for the socket connect attempts, `Except String Nat` values stand
for HTTP responses (`.error` models a raised exception), and
`String → Option String` stands for the process environment. Durations
are exact rationals (seconds). String operations are modelled on the
character list of the string so that they evaluate.
-/

namespace Graphiti

/-- `s.startswith(pre)` on character lists. -/
def startsWithChars : List Char → List Char → Bool
  | _, [] => true
  | [], _ :: _ => false
  | a :: as, b :: bs => a == b && startsWithChars as bs

/-- `s.strip()`: drop whitespace from both ends. -/
def trimChars (l : List Char) : List Char :=
  ((l.dropWhile Char.isWhitespace).reverse.dropWhile Char.isWhitespace).reverse

/-- Digit-string value, `none` when empty or not all digits. -/
def digitsToNat (l : List Char) : Option Nat :=
  if l.isEmpty then none
  else if l.all (fun ch => ch.isDigit) then
    some (l.foldl (fun a ch => 10 * a + (ch.toNat - 48)) 0)
  else none

/-- Model of Python `int(s)` on a sign-plus-digits string: `none` models a
raised `ValueError`. Leading and trailing whitespace is stripped, as
`int` does. -/
def pyInt (s : String) : Option Int :=
  match trimChars s.toList with
  | [] => none
  | '-' :: rest => (digitsToNat rest).map (fun n => -(n : Int))
  | '+' :: rest => (digitsToNat rest).map (fun n => (n : Int))
  | l => (digitsToNat l).map (fun n => (n : Int))

/-- Outcome of one socket probe (the body of the `try` block around
`sock.connect_ex`): either an error code returned by `connect_ex`
(`0` means connected), or an exception raised by the socket calls
(timeout, DNS failure, ...). -/
inductive ProbeOutcome where
  | result (code : Int)
  | exc (reason : String)
deriving DecidableEq, Repr

/-- The per-attempt success test of the retry loop: `connect_ex` returned
`0`. A nonzero code and a caught exception both fall through to the
warning-and-continue path of the source. -/
def probeSuccess : ProbeOutcome → Bool
  | .result code => code == 0
  | .exc _ => false

/-- Observable trace of one `wait_for_neo4j` retry-loop run: the returned
boolean, how many probe attempts were made, and the list of sleep
durations (seconds), in order. -/
structure RetryTrace where
  success : Bool
  attempts : Nat
  sleeps : List ℚ
deriving DecidableEq, Repr

/-- Outcome of an opaque effectful call (`initialize_graphiti`,
`uvicorn.run`): completed, or raised an exception. -/
inductive InitOutcome where
  | ok
  | exc (reason : String)
deriving DecidableEq, Repr

/-- Result of running a startup entry point: reached the serving state
(recording whether the dependency wait succeeded and whether application
initialization succeeded), terminated the process with an exit code, or
raised an uncaught exception. -/
inductive SequencerResult where
  | serving (neo4jReady : Bool) (graphitiOk : Bool)
  | exited (code : Nat)
  | raised (reason : String)
deriving DecidableEq, Repr

namespace startup

/-- URI parsing of `wait_for_neo4j` (startup.py lines 26-34): when the URI
starts with `bolt://` slice off `uri[6:]`, then split on the first `:`
into host and port when one is present, defaulting the port to 7687.
`none` models the `ValueError` raised by `int(port_str)`. -/
def parseUri (uri : String) : Option (String × Int) :=
  let chars := if startsWithChars uri.toList "bolt://".toList then uri.toList.drop 6
               else uri.toList
  if chars.contains ':' then
    let host := chars.takeWhile (fun ch => ch != ':')
    let port_str := chars.drop (host.length + 1)
    match pyInt ⟨port_str⟩ with
    | some port => some (⟨host⟩, port)
    | none => none
  else
    some (⟨chars⟩, 7687)

/-- The backoff update of startup.py line 56:
`retry_delay = min(retry_delay * 1.2, 10)`. -/
def nextDelay (retry_delay : ℚ) : ℚ :=
  min (retry_delay * 1.2) 10

/-- The sequence of sleep durations the loop generates from an initial
delay: the i-th sleep is the i-fold capped update of the initial delay. -/
def delaySeq (retry_delay : ℚ) : Nat → ℚ
  | 0 => retry_delay
  | i + 1 => nextDelay (delaySeq retry_delay i)

/-- The `for attempt in range(max_retries)` loop of startup.py lines
38-56, with `remaining = max_retries - attempt` as the recursion measure.
On a successful probe it returns `True` immediately; after a failed
attempt it sleeps and grows the delay unless this was the final attempt
(the `attempt < max_retries - 1` guard). -/
def retryLoop (probe : Nat → ProbeOutcome) : Nat → Nat → ℚ → RetryTrace
  | _, 0, _ => ⟨false, 0, []⟩
  | attempt, remaining + 1, retry_delay =>
    if probeSuccess (probe attempt) then
      ⟨true, 1, []⟩
    else if remaining = 0 then
      ⟨false, 1, []⟩
    else
      let rest := retryLoop probe (attempt + 1) remaining (nextDelay retry_delay)
      ⟨rest.success, rest.attempts + 1, retry_delay :: rest.sleeps⟩

/-- `wait_for_neo4j` of startup.py lines 21-59. `net host port attempt`
gives the outcome of the socket probe against the parsed address at the
given attempt index. `none` models the uncaught `ValueError` from
parsing; `some trace` gives the returned boolean with its attempt and
sleep trace. -/
def wait_for_neo4j (net : String → Int → Nat → ProbeOutcome) (uri : String)
    (max_retries : Nat) (retry_delay : ℚ) : Option RetryTrace :=
  match parseUri uri with
  | none => none
  | some (host, port) => some (retryLoop (net host port) 0 max_retries retry_delay)

/-- `main` of startup.py lines 62-91: read `NEO4J_URI` (default
`bolt://neo4j:7687`), wait for Neo4j with the default policy, and on
driver failure call `sys.exit(1)`; otherwise start the server, exiting
with code 1 if that raises. -/
def main_run (net : String → Int → Nat → ProbeOutcome)
    (env_NEO4J_URI : Option String) (serverStart : InitOutcome) : SequencerResult :=
  let neo4j_uri := env_NEO4J_URI.getD "bolt://neo4j:7687"
  match wait_for_neo4j net neo4j_uri 30 2 with
  | none => .raised "ValueError"
  | some t =>
    if t.success then
      match serverStart with
      | .ok => .serving true true
      | .exc _ => .exited 1
    else
      .exited 1

end startup

namespace gsmain

/-- URI parsing of `wait_for_neo4j` (main.py lines 22-30), duplicated
from startup.py. -/
def parseUri (uri : String) : Option (String × Int) :=
  let chars := if startsWithChars uri.toList "bolt://".toList then uri.toList.drop 6
               else uri.toList
  if chars.contains ':' then
    let host := chars.takeWhile (fun ch => ch != ':')
    let port_str := chars.drop (host.length + 1)
    match pyInt ⟨port_str⟩ with
    | some port => some (⟨host⟩, port)
    | none => none
  else
    some (⟨chars⟩, 7687)

/-- The backoff update of main.py line 52, duplicated from startup.py. -/
def nextDelay (retry_delay : ℚ) : ℚ :=
  min (retry_delay * 1.2) 10

/-- The retry loop of main.py lines 34-52, duplicated from startup.py. -/
def retryLoop (probe : Nat → ProbeOutcome) : Nat → Nat → ℚ → RetryTrace
  | _, 0, _ => ⟨false, 0, []⟩
  | attempt, remaining + 1, retry_delay =>
    if probeSuccess (probe attempt) then
      ⟨true, 1, []⟩
    else if remaining = 0 then
      ⟨false, 1, []⟩
    else
      let rest := retryLoop probe (attempt + 1) remaining (nextDelay retry_delay)
      ⟨rest.success, rest.attempts + 1, retry_delay :: rest.sleeps⟩

/-- `wait_for_neo4j` of main.py lines 17-55, duplicated from startup.py. -/
def wait_for_neo4j (net : String → Int → Nat → ProbeOutcome) (uri : String)
    (max_retries : Nat) (retry_delay : ℚ) : Option RetryTrace :=
  match parseUri uri with
  | none => none
  | some (host, port) => some (retryLoop (net host port) 0 max_retries retry_delay)

/-- `lifespan` of main.py lines 58-79: wait for Neo4j with the default
policy (logging an error but continuing when the driver fails), then call
`initialize_graphiti`, swallowing any exception, and in every case reach
the `yield`, i.e. start serving. -/
def lifespan (net : String → Int → Nat → ProbeOutcome) (neo4j_uri : String)
    (init : InitOutcome) : SequencerResult :=
  match wait_for_neo4j net neo4j_uri 30 2 with
  | none => .raised "ValueError"
  | some t =>
    match init with
    | .ok => .serving t.success true
    | .exc _ => .serving t.success false

end gsmain

namespace healthcheck

/-- `check_health` of healthcheck.py lines 9-21: `True` iff the GET of
`/healthcheck` returned status code 200; any exception yields `False`. -/
def check_health (resp : Except String Nat) : Bool :=
  match resp with
  | .ok code => code == 200
  | .error _ => false

/-- The `__main__` block of healthcheck.py lines 23-27: exit 0 when
`check_health` is true, else exit 1. -/
def script_exit (resp : Except String Nat) : Nat :=
  if check_health resp then 0 else 1

end healthcheck

namespace verify

/-- The per-variable test of `check_environment_variables`:
`value is not None and value.strip() != ''`. -/
def envVarSet (env : String → Option String) (v : String) : Bool :=
  match env v with
  | none => false
  | some value => !(trimChars value.toList).isEmpty

def required_vars : List String :=
  ["OPENAI_API_KEY", "NEO4J_USER", "NEO4J_PASSWORD"]

def optional_vars : List String :=
  ["MODEL_NAME", "EMBEDDING_MODEL_NAME", "SEMAPHORE_LIMIT"]

/-- `check_environment_variables` of verify_deployment.py lines 79-111:
a per-name boolean for each required and optional variable. -/
def check_environment_variables (env : String → Option String) : List (String × Bool) :=
  (required_vars ++ optional_vars).map (fun v => (v, envVarSet env v))

/-- `check_neo4j_connection` of verify_deployment.py lines 18-33: a
syntactic check only, true iff the URI starts with `bolt://`. -/
def check_neo4j_connection (uri : String) : Bool :=
  startsWithChars uri.toList "bolt://".toList

/-- `check_server_health` of verify_deployment.py lines 36-49: true iff
the GET of `/healthcheck` returned 200; any exception yields `False`. -/
def check_server_health (resp : Except String Nat) : Bool :=
  match resp with
  | .ok status => status == 200
  | .error _ => false

/-- The per-endpoint body of `check_api_endpoints`: status 200 on
success, `False` when the request raised. -/
def endpointOk (resp : Except String Nat) : Bool :=
  match resp with
  | .ok status => status == 200
  | .error _ => false

/-- `check_api_endpoints` of verify_deployment.py lines 52-74 over the
fixed endpoint set `{root: /, healthcheck: /healthcheck}`. -/
def check_api_endpoints (rootResp hcResp : Except String Nat) : List (String × Bool) :=
  [("root", endpointOk rootResp), ("healthcheck", endpointOk hcResp)]

/-- Python `results.get(var, False)` on the association list. -/
def lookupD (l : List (String × Bool)) (k : String) : Bool :=
  ((l.find? (fun p => p.1 == k)).map (fun p => p.2)).getD false

/-- The aggregation of `main` (verify_deployment.py lines 142-157):
`overall_ok = required_env_ok and neo4j_ok and server_health and api_ok`,
where `required_env_ok` reads the three required names back out of the
environment-check results, `neo4j_ok` is the syntactic URI check on
`NEO4J_URI` (default `bolt://neo4j:7687`), and `api_ok` ANDs the endpoint
results. -/
def overall_ok (env : String → Option String)
    (healthResp rootResp hcResp : Except String Nat) : Bool :=
  let env_check := check_environment_variables env
  let neo4j_uri := (env "NEO4J_URI").getD "bolt://neo4j:7687"
  let neo4j_ok := check_neo4j_connection neo4j_uri
  let server_health := check_server_health healthResp
  let api_endpoints := check_api_endpoints rootResp hcResp
  let required_env_ok := required_vars.all (fun v => lookupD env_check v)
  let api_ok := api_endpoints.all (fun p => p.2)
  required_env_ok && neo4j_ok && server_health && api_ok

/-- `main`'s return value, fed to `sys.exit` (verify_deployment.py lines
170-175): `0 if overall_ok else 1`. -/
def main_exit (env : String → Option String)
    (healthResp rootResp hcResp : Except String Nat) : Nat :=
  if overall_ok env healthResp rootResp hcResp then 0 else 1

end verify

/-- The claim-side generalized capped-backoff sequence with explicit
multiplier and cap, of which the source's sequence is the instance
`m = 1.2`, `c = 10`. -/
def delaySeqGen (m c d0 : ℚ) : Nat → ℚ
  | 0 => d0
  | i + 1 => min (delaySeqGen m c d0 i * m) c

namespace startup

theorem delaySeq_nextDelay (d : ℚ) (i : Nat) :
    delaySeq (nextDelay d) i = delaySeq d (i + 1) := by
  induction i with
  | zero => rfl
  | succ i ih => rw [delaySeq, ih]; rfl

theorem range_map_delaySeq (d : ℚ) (r : Nat) :
    (List.range (r + 1)).map (delaySeq d) = d :: (List.range r).map (delaySeq (nextDelay d)) := by
  rw [List.range_succ_eq_map, List.map_cons, List.map_map]
  refine congrArg₂ List.cons rfl ?_
  congr 1
  funext i
  simp [Function.comp, delaySeq_nextDelay]

theorem retryLoop_attempts_le (probe : Nat → ProbeOutcome) (a r : Nat) (d : ℚ) :
    (retryLoop probe a r d).attempts ≤ r := by
  induction r generalizing a d with
  | zero => simp [retryLoop]
  | succ r ih =>
    by_cases hs : probeSuccess (probe a)
    · simp [retryLoop, hs]
    · by_cases hr : r = 0
      · simp [retryLoop, hs, hr]
      · have h := ih (a + 1) (nextDelay d)
        simp only [retryLoop, hs, Bool.false_eq_true, if_false, hr]
        simpa using Nat.succ_le_succ h

theorem retryLoop_attempts_pos (probe : Nat → ProbeOutcome) (a r : Nat) (d : ℚ)
    (hr : 1 ≤ r) : 1 ≤ (retryLoop probe a r d).attempts := by
  obtain _ | r := r
  · omega
  · by_cases hs : probeSuccess (probe a)
    · simp [retryLoop, hs]
    · by_cases hr0 : r = 0
      · simp [retryLoop, hs, hr0]
      · simp only [retryLoop, hs, Bool.false_eq_true, if_false, hr0]
        omega

theorem retryLoop_sleeps_len (probe : Nat → ProbeOutcome) (a r : Nat) (d : ℚ) :
    (retryLoop probe a r d).sleeps.length = (retryLoop probe a r d).attempts - 1 := by
  induction r generalizing a d with
  | zero => simp [retryLoop]
  | succ r ih =>
    by_cases hs : probeSuccess (probe a)
    · simp [retryLoop, hs]
    · by_cases hr : r = 0
      · simp [retryLoop, hs, hr]
      · have h1 := retryLoop_attempts_pos probe (a + 1) r (nextDelay d)
          (Nat.one_le_iff_ne_zero.mpr hr)
        have h2 := ih (a + 1) (nextDelay d)
        simp only [retryLoop, hs, Bool.false_eq_true, if_false, hr, List.length_cons]
        omega

theorem retryLoop_all_fail (probe : Nat → ProbeOutcome)
    (hfail : ∀ i, probeSuccess (probe i) = false) (a r : Nat) (d : ℚ) :
    retryLoop probe a r d = ⟨false, r, (List.range (r - 1)).map (delaySeq d)⟩ := by
  induction r generalizing a d with
  | zero => simp [retryLoop]
  | succ r ih =>
    obtain _ | r' := r
    · simp [retryLoop, hfail]
    · rw [show retryLoop probe a (r' + 1 + 1) d
          = ⟨(retryLoop probe (a + 1) (r' + 1) (nextDelay d)).success,
             (retryLoop probe (a + 1) (r' + 1) (nextDelay d)).attempts + 1,
             d :: (retryLoop probe (a + 1) (r' + 1) (nextDelay d)).sleeps⟩ by
        rw [retryLoop, hfail a]; simp]
      rw [ih (a + 1) (nextDelay d)]
      simp only [Nat.add_sub_cancel]
      exact congrArg (RetryTrace.mk false (r' + 1 + 1)) (range_map_delaySeq d r').symm

theorem retryLoop_first_success (probe : Nat → ProbeOutcome) (j : Nat) :
    ∀ a r d, j < r →
    (∀ i, i < j → probeSuccess (probe (a + i)) = false) →
    probeSuccess (probe (a + j)) = true →
    retryLoop probe a r d = ⟨true, j + 1, (List.range j).map (delaySeq d)⟩ := by
  induction j with
  | zero =>
    intro a r d hj _ hsucc
    obtain _ | r' := r
    · omega
    · rw [retryLoop]
      simp only [Nat.add_zero] at hsucc
      simp [hsucc]
  | succ j ih =>
    intro a r d hj hfail hsucc
    obtain _ | r' := r
    · omega
    · have hf0 : probeSuccess (probe a) = false := by
        simpa using hfail 0 (by omega)
      have hr' : r' ≠ 0 := by omega
      rw [show retryLoop probe a (r' + 1) d
          = ⟨(retryLoop probe (a + 1) r' (nextDelay d)).success,
             (retryLoop probe (a + 1) r' (nextDelay d)).attempts + 1,
             d :: (retryLoop probe (a + 1) r' (nextDelay d)).sleeps⟩ by
        obtain _ | r'' := r'
        · omega
        · rw [retryLoop, hf0]; simp]
      rw [ih (a + 1) r' (nextDelay d) (by omega)
          (fun i hi => by
            have h := hfail (i + 1) (by omega)
            rw [show a + 1 + i = a + (i + 1) by omega]
            exact h)
          (by
            have h := hsucc
            rw [show a + 1 + j = a + (j + 1) by omega]
            exact h)]
      exact congrArg (RetryTrace.mk true (j + 1 + 1)) (range_map_delaySeq d j).symm

end startup

/-- The source's capped update iterates to the generalized sequence at
multiplier `1.2` and cap `10`. -/
theorem delaySeq_eq_gen (d0 : ℚ) (i : Nat) :
    startup.delaySeq d0 i = delaySeqGen 1.2 10 d0 i := by
  induction i with
  | zero => rfl
  | succ i ih => rw [startup.delaySeq, delaySeqGen, ih]; rfl

/-- Closed form of the iterated capped update, valid when the initial
delay does not already exceed the cap. -/
theorem delaySeqGen_closed (m c d0 : ℚ) (hm : 1 ≤ m) (hc : 0 ≤ c) (hdc : d0 ≤ c) (i : Nat) :
    delaySeqGen m c d0 i = min (d0 * m ^ i) c := by
  induction i with
  | zero =>
    rw [delaySeqGen, pow_zero, mul_one, min_eq_left hdc]
  | succ i ih =>
    rw [delaySeqGen, ih, min_mul_of_nonneg _ _ (le_trans zero_le_one hm), min_assoc,
      min_eq_right (le_mul_of_one_le_right hc hm), pow_succ, mul_assoc]

theorem delaySeqGen_le_cap (m c d0 : ℚ) (hm : 1 ≤ m) (hc : 0 ≤ c) (hdc : d0 ≤ c) (i : Nat) :
    delaySeqGen m c d0 i ≤ c := by
  rw [delaySeqGen_closed m c d0 hm hc hdc i]
  exact min_le_right _ _

theorem delaySeqGen_mono (m c d0 : ℚ) (hd : 0 ≤ d0) (hm : 1 ≤ m) (hc : 0 ≤ c) (hdc : d0 ≤ c)
    (i : Nat) : delaySeqGen m c d0 i ≤ delaySeqGen m c d0 (i + 1) := by
  rw [delaySeqGen_closed m c d0 hm hc hdc i, delaySeqGen_closed m c d0 hm hc hdc (i + 1)]
  have hpow : m ^ i ≤ m ^ (i + 1) := by
    rw [pow_succ]
    exact le_mul_of_one_le_right (pow_nonneg (le_trans zero_le_one hm) i) hm
  exact min_le_min (mul_le_mul_of_nonneg_left hpow hd) le_rfl

theorem parseUri_unified (u : String) : startup.parseUri u = gsmain.parseUri u := rfl

theorem retryLoop_unified (probe : Nat → ProbeOutcome) (r a : Nat) (d : ℚ) :
    startup.retryLoop probe a r d = gsmain.retryLoop probe a r d := by
  induction r generalizing a d with
  | zero => rfl
  | succ r ih =>
    rw [startup.retryLoop, gsmain.retryLoop]
    by_cases hs : probeSuccess (probe a)
    · simp [hs]
    · by_cases hr : r = 0
      · simp [hs, hr]
      · simp only [hs, Bool.false_eq_true, if_false, hr]
        have hnd : startup.nextDelay d = gsmain.nextDelay d := rfl
        rw [hnd, ih (a + 1) (gsmain.nextDelay d)]

/-- C1: the spec's parsing examples against `wait_for_neo4j`'s URI
parsing. The code slices `uri[6:]`, removing only six of the seven
characters of `bolt://`, so the host keeps a leading slash: the spec's
examples `host = neo4j` and `host = db` fail, while the scheme-less
example holds. -/
theorem C1_uri_parse_code_bug :
    startup.parseUri "bolt://neo4j:7687" = some ("/neo4j", 7687)
    ∧ startup.parseUri "bolt://db" = some ("/db", 7687)
    ∧ startup.parseUri "db:9999" = some ("db", 9999)
    ∧ "/neo4j" ≠ "neo4j" ∧ "/db" ≠ "db" := by decide

/-- C2: with `max_attempts = N ≥ 1`, the driver loop makes at most `N`
probe attempts and sleeps exactly once between consecutive attempts
(`attempts - 1` sleeps); when the probe fails on every attempt it returns
`False` after exactly `N` attempts with the `N - 1` capped backoff delays
as its sleeps, whose total is the sum of the capped delay sequence. -/
theorem C2_driver_budget (probe : Nat → ProbeOutcome) (N : Nat) (d : ℚ) (_hN : 1 ≤ N) :
    (startup.retryLoop probe 0 N d).attempts ≤ N
    ∧ (startup.retryLoop probe 0 N d).sleeps.length
      = (startup.retryLoop probe 0 N d).attempts - 1
    ∧ ((∀ i, probeSuccess (probe i) = false) →
        startup.retryLoop probe 0 N d
          = ⟨false, N, (List.range (N - 1)).map (startup.delaySeq d)⟩
        ∧ (startup.retryLoop probe 0 N d).sleeps.sum
          = ((List.range (N - 1)).map (startup.delaySeq d)).sum) := by
  refine ⟨startup.retryLoop_attempts_le probe 0 N d,
    startup.retryLoop_sleeps_len probe 0 N d, ?_⟩
  intro hfail
  have h := startup.retryLoop_all_fail probe hfail 0 N d
  exact ⟨h, by rw [h]⟩

theorem C2_driver_budget_witness :
    1 ≤ 3 ∧ (startup.retryLoop (fun _ => ProbeOutcome.result 1) 0 3 2).attempts ≤ 3 :=
  ⟨by decide, (C2_driver_budget (fun _ => ProbeOutcome.result 1) 3 2 (by decide)).1⟩

/-- C3: when the probe first succeeds at attempt `k ≤ N` (1-indexed), the
driver loop returns `True` with exactly `k` probe attempts and only the
`k - 1` sleeps made between consecutive attempts — no attempts and no
delay after attempt `k`. -/
theorem C3_first_success (probe : Nat → ProbeOutcome) (N k : Nat) (d : ℚ)
    (hk : 1 ≤ k) (hkN : k ≤ N)
    (hfail : ∀ i, i < k - 1 → probeSuccess (probe i) = false)
    (hsucc : probeSuccess (probe (k - 1)) = true) :
    startup.retryLoop probe 0 N d
      = ⟨true, k, (List.range (k - 1)).map (startup.delaySeq d)⟩ := by
  have h := startup.retryLoop_first_success probe (k - 1) 0 N d (by omega)
      (fun i hi => by simpa using hfail i hi)
      (by simpa using hsucc)
  have hk1 : k - 1 + 1 = k := by omega
  rw [h, hk1]

theorem C3_first_success_witness :
    startup.retryLoop
        (fun i => if i < 3 then ProbeOutcome.result 1 else ProbeOutcome.result 0) 0 30 2
      = ⟨true, 4, (List.range 3).map (startup.delaySeq 2)⟩ :=
  C3_first_success (fun i => if i < 3 then ProbeOutcome.result 1 else ProbeOutcome.result 0)
    30 4 2 (by decide) (by decide) (by decide) (by decide)

/-- C10: the two duplicated driver implementations, `wait_for_neo4j` in
startup.py and in main.py, are extensionally equal: same parsing, same
attempt and sleep trace, same returned boolean, for every input. -/
theorem C10_duplicate_drivers_equal (net : String → Int → Nat → ProbeOutcome) (uri : String)
    (N : Nat) (d : ℚ) :
    startup.wait_for_neo4j net uri N d = gsmain.wait_for_neo4j net uri N d := by
  simp only [startup.wait_for_neo4j, gsmain.wait_for_neo4j, parseUri_unified]
  cases gsmain.parseUri uri with
  | none => rfl
  | some hp => exact congrArg some (retryLoop_unified (net hp.1 hp.2) N 0 d)

/-- C4 (amended): for every retry policy with positive initial delay,
multiplier above one and positive cap, PROVIDED the initial delay does
not exceed the cap, the capped backoff sequence realizes the closed form
`min(initial_delay * multiplier^i, max_delay)`, is monotonically
non-decreasing, and never exceeds the cap; the source's iterated update
`min(retry_delay * 1.2, 10)` generates exactly this sequence at
`multiplier = 1.2`, `max_delay = 10`. -/
theorem C4_capped_backoff_amended (d0 m c : ℚ) (hd : 0 < d0) (hm : 1 < m) (hc : 0 < c)
    (hdc : d0 ≤ c) (i : Nat) :
    delaySeqGen m c d0 i = min (d0 * m ^ i) c
    ∧ delaySeqGen m c d0 i ≤ delaySeqGen m c d0 (i + 1)
    ∧ delaySeqGen m c d0 i ≤ c
    ∧ startup.delaySeq d0 i = delaySeqGen 1.2 10 d0 i :=
  ⟨delaySeqGen_closed m c d0 hm.le hc.le hdc i,
   delaySeqGen_mono m c d0 hd.le hm.le hc.le hdc i,
   delaySeqGen_le_cap m c d0 hm.le hc.le hdc i,
   delaySeq_eq_gen d0 i⟩

theorem C4_capped_backoff_witness :
    0 < (2 : ℚ) ∧ delaySeqGen 2 10 2 1 = min (2 * 2 ^ 1) 10 :=
  ⟨by decide,
   (C4_capped_backoff_amended 2 2 10 (by decide) (by decide) (by decide) (by decide) 1).1⟩

/-- C4 counterexample: without the `initial_delay ≤ max_delay` proviso
the claim is false. At `retry_delay = 20` (multiplier 1.2, cap 10 as in
the source) the driver's first sleep is 20, which exceeds the cap, the
sleep sequence `[20, 10]` decreases, and the closed form fails at
`i = 0`. -/
theorem C4_capped_backoff_counterexample :
    (startup.retryLoop (fun _ => ProbeOutcome.result 1) 0 3 20).sleeps = [20, 10]
    ∧ ¬ ((20 : ℚ) ≤ 10)
    ∧ ¬ (∀ d0 m c : ℚ, 0 < d0 → 1 < m → 0 < c → ∀ i : Nat,
          delaySeqGen m c d0 i = min (d0 * m ^ i) c
          ∧ delaySeqGen m c d0 i ≤ delaySeqGen m c d0 (i + 1)
          ∧ delaySeqGen m c d0 i ≤ c) := by
  refine ⟨?_, by norm_num, ?_⟩
  · have h10 : startup.nextDelay 20 = 10 := by
      rw [startup.nextDelay, min_eq_right]
      norm_num
    simp [startup.retryLoop, probeSuccess, h10]
  · intro h
    have h0 := (h 20 1.2 10 (by norm_num) (by norm_num) (by norm_num) 0).2.2
    rw [show delaySeqGen 1.2 10 20 0 = 20 from rfl] at h0
    norm_num at h0

theorem envVarSet_congr (env env' : String → Option String) (v : String)
    (h : env v = env' v) : verify.envVarSet env v = verify.envVarSet env' v := by
  rw [verify.envVarSet, verify.envVarSet, h]

/-- Normal form of the aggregator's composite: the conjunction of the
three required-variable checks, the syntactic URI check, the liveness
check and the two endpoint checks. -/
theorem overall_ok_formula (env : String → Option String)
    (healthResp rootResp hcResp : Except String Nat) :
    verify.overall_ok env healthResp rootResp hcResp
      = ((verify.envVarSet env "OPENAI_API_KEY" && verify.envVarSet env "NEO4J_USER"
          && verify.envVarSet env "NEO4J_PASSWORD")
        && verify.check_neo4j_connection ((env "NEO4J_URI").getD "bolt://neo4j:7687")
        && verify.check_server_health healthResp
        && (verify.endpointOk rootResp && verify.endpointOk hcResp)) := by
  simp [verify.overall_ok, verify.check_environment_variables, verify.required_vars,
    verify.optional_vars, verify.lookupD, verify.check_api_endpoints, List.all,
    List.find?, Bool.and_assoc]

/-- C5: the aggregator's composite result is the AND of the three
required-environment checks, the syntactic URI check, the liveness check
and the endpoint checks; it is invariant under changes to variables
outside the required set and `NEO4J_URI`; and it is false whenever any
single required variable is missing or blank, regardless of the network
check results. -/
theorem C5_aggregator_composite (env : String → Option String)
    (healthResp rootResp hcResp : Except String Nat) :
    (verify.overall_ok env healthResp rootResp hcResp
      = ((verify.envVarSet env "OPENAI_API_KEY" && verify.envVarSet env "NEO4J_USER"
          && verify.envVarSet env "NEO4J_PASSWORD")
        && verify.check_neo4j_connection ((env "NEO4J_URI").getD "bolt://neo4j:7687")
        && verify.check_server_health healthResp
        && (verify.endpointOk rootResp && verify.endpointOk hcResp)))
    ∧ (∀ env' : String → Option String,
        (∀ v ∈ verify.required_vars, env v = env' v) →
        env "NEO4J_URI" = env' "NEO4J_URI" →
        verify.overall_ok env healthResp rootResp hcResp
          = verify.overall_ok env' healthResp rootResp hcResp)
    ∧ (∀ v ∈ verify.required_vars, verify.envVarSet env v = false →
        verify.overall_ok env healthResp rootResp hcResp = false) := by
  refine ⟨overall_ok_formula env healthResp rootResp hcResp, ?_, ?_⟩
  · intro env' hreq huri
    rw [overall_ok_formula, overall_ok_formula,
      envVarSet_congr env env' "OPENAI_API_KEY" (hreq _ (by decide)),
      envVarSet_congr env env' "NEO4J_USER" (hreq _ (by decide)),
      envVarSet_congr env env' "NEO4J_PASSWORD" (hreq _ (by decide)), huri]
  · intro v hv hfalse
    simp only [verify.required_vars, List.mem_cons, List.not_mem_nil, or_false] at hv
    rw [overall_ok_formula]
    rcases hv with rfl | rfl | rfl <;> simp [hfalse]

/-- C6 (amended): for every URI whose port suffix parses as an integer
(or that has no port), `wait_for_neo4j` never raises: every socket-level
failure mode, exceptions included, is converted into a failed attempt and
at worst an overall `False` return. A URI with a non-numeric port suffix,
however, raises `ValueError` from `int(port_str)` before any probing. -/
theorem C6_no_raise_amended (net : String → Int → Nat → ProbeOutcome) (uri : String)
    (N : Nat) (d : ℚ) (hp : (startup.parseUri uri).isSome) :
    (startup.wait_for_neo4j net uri N d).isSome
    ∧ ∀ reason, probeSuccess (ProbeOutcome.exc reason) = false := by
  refine ⟨?_, fun _ => rfl⟩
  obtain ⟨⟨host, port⟩, hpu⟩ := Option.isSome_iff_exists.mp hp
  simp [startup.wait_for_neo4j, hpu]

theorem C6_no_raise_witness :
    (startup.wait_for_neo4j (fun _ _ _ => ProbeOutcome.exc "timeout")
        "bolt://neo4j:7687" 30 2).isSome
    ∧ ∀ reason, probeSuccess (ProbeOutcome.exc reason) = false :=
  C6_no_raise_amended (fun _ _ _ => ProbeOutcome.exc "timeout") "bolt://neo4j:7687" 30 2
    (by decide)

/-- C6 counterexample: at `bolt://db:abc` the parse raises (modelled as
`none`) before the loop runs, even though every probe would succeed — the
claim that every URI and failure mode is converted to an Unreachable
outcome is false. -/
theorem C6_nonnumeric_port_counterexample :
    startup.wait_for_neo4j (fun _ _ _ => ProbeOutcome.result 0) "bolt://db:abc" 30 2 = none
    ∧ startup.parseUri "bolt://db:abc" = none := by decide

/-- C7 (amended): the lifespan sequencer of main.py never terminates the
process: for every driver outcome it proceeds through application
initialization (success or failure) and reaches the serving state. The
standalone startup.py entry point, by contrast, exits the process with
code 1 when the driver returns failure (see the counterexample). -/
theorem C7_lifespan_serving_amended (net : String → Int → Nat → ProbeOutcome) (uri : String)
    (init : InitOutcome) (hp : (gsmain.parseUri uri).isSome) :
    ∃ ready gOk, gsmain.lifespan net uri init = SequencerResult.serving ready gOk := by
  obtain ⟨⟨host, port⟩, hpu⟩ := Option.isSome_iff_exists.mp hp
  cases init with
  | ok =>
    exact ⟨(gsmain.retryLoop (net host port) 0 30 2).success, true,
      by simp [gsmain.lifespan, gsmain.wait_for_neo4j, hpu]⟩
  | exc e =>
    exact ⟨(gsmain.retryLoop (net host port) 0 30 2).success, false,
      by simp [gsmain.lifespan, gsmain.wait_for_neo4j, hpu]⟩

theorem C7_lifespan_serving_witness :
    ∃ ready gOk, gsmain.lifespan (fun _ _ _ => ProbeOutcome.result 1) "bolt://neo4j:7687"
        (InitOutcome.exc "boom") = SequencerResult.serving ready gOk :=
  C7_lifespan_serving_amended (fun _ _ _ => ProbeOutcome.result 1) "bolt://neo4j:7687"
    (InitOutcome.exc "boom") (by decide)

/-- C7 counterexample: startup.py's `main` — also cited by the claim —
terminates the process with exit code 1 when the driver exhausts its
budget (probe always failing), instead of continuing to initialization. -/
theorem C7_startup_exit_counterexample :
    startup.main_run (fun _ _ _ => ProbeOutcome.result 1) none InitOutcome.ok
      = SequencerResult.exited 1 := by decide

/-- C8: the health-check script exits 0 exactly on an HTTP 200 from
`/healthcheck` and 1 on any other status or exception; the aggregator
exits 0 iff its composite result is true, 1 otherwise. -/
theorem C8_exit_codes :
    healthcheck.script_exit (Except.ok 200) = 0
    ∧ (∀ s : Nat, s ≠ 200 → healthcheck.script_exit (Except.ok s) = 1)
    ∧ (∀ e : String, healthcheck.script_exit (Except.error e) = 1)
    ∧ (∀ (env : String → Option String) (h r hc : Except String Nat),
        (verify.main_exit env h r hc = 0 ↔ verify.overall_ok env h r hc = true)
        ∧ (verify.main_exit env h r hc = 1 ↔ verify.overall_ok env h r hc = false)) := by
  refine ⟨rfl, ?_, fun e => rfl, ?_⟩
  · intro s hs
    simp [healthcheck.script_exit, healthcheck.check_health, hs]
  · intro env h r hc
    by_cases hov : verify.overall_ok env h r hc <;> simp [verify.main_exit, hov]

/-- C9: every HTTP check converts exceptions to a false result for that
one check and never propagates them, so the verification tool always
runs to completion and produces an exit code — in particular exit code 1
when every probed target is broken. -/
theorem C9_verification_total :
    (∀ e : String, verify.check_server_health (Except.error e) = false)
    ∧ (∀ e₁ e₂ : String, verify.check_api_endpoints (Except.error e₁) (Except.error e₂)
        = [("root", false), ("healthcheck", false)])
    ∧ (∀ (env : String → Option String) (h r hc : Except String Nat),
        verify.main_exit env h r hc = 0 ∨ verify.main_exit env h r hc = 1)
    ∧ (∀ (env : String → Option String) (e₁ e₂ e₃ : String),
        verify.main_exit env (Except.error e₁) (Except.error e₂) (Except.error e₃) = 1) := by
  refine ⟨fun e => rfl, fun e₁ e₂ => rfl, ?_, ?_⟩
  · intro env h r hc
    by_cases hov : verify.overall_ok env h r hc <;> simp [verify.main_exit, hov]
  · intro env e₁ e₂ e₃
    simp [verify.main_exit, overall_ok_formula, verify.check_server_health]

end Graphiti
